import Mathlib

/-!
Verification of the crash-draft crime-report backend core.

Shallow embedding of the Python source in `Backend/core/services.py` and
`Backend/core/views/__init__.py`.  Database rows become Lean structures,
querysets become lists, and the ORM filter/annotate pipelines become list
operations.  Machine floats appearing in the haversine distance are
abstracted by an arbitrary rational-valued distance function parameter
(the scan/skip/tie-break logic under scrutiny is independent of the
concrete distance values).  Timestamps and durations are modelled as
integer seconds.  `None`-able Python values become `Option` values, and
Python truthiness on optional strings (`not s` is true for both `None`
and `""`) is modelled explicitly by `pyTruthy`.
-/

/-- Python truthiness of an optional string: `None` and `""` are falsy. -/
def pyTruthy : Option String → Bool
  | none => false
  | some s => !(s == "")

/-- Lowercasing used to model Django `__iexact` / Python `.lower()`.
(Defined over the character list so that it reduces in the kernel;
`String.toLower` itself is definitionally opaque to `decide`.) -/
def pyLower (s : String) : String := String.mk (s.data.map Char.toLower)

/-- Case-insensitive string equality, modelling Django `__iexact`. -/
def ieq (a b : String) : Bool := pyLower a == pyLower b

/-- A row of `tbl_reports` restricted to the fields the analytics and
summary code reads.  `created_at`/`updated_at` are integer timestamps. -/
structure Report where
  report_id : Nat
  status : String
  location_city : Option String
  location_barangay : Option String
  category : Option String
  created_at : Int
  updated_at : Option Int
deriving DecidableEq

/-- A police office: coordinates are `none` when the stored value is not
numeric (in the source `float(...)` raises and the office is skipped). -/
structure Office where
  office_id : Nat
  latitude : Option ℚ
  longitude : Option ℚ
deriving DecidableEq

/-- A checkpoint's time window; times-of-day are seconds after midnight,
`none` when the field is missing. -/
structure Checkpoint where
  checkpoint_id : Nat
  time_start : Option Nat
  time_end : Option Nat
deriving DecidableEq

/-- A row of `tbl_summary_analytics`. -/
structure SRow where
  location_city : String
  location_barangay : String
  category : Option String
  report_count : Int
  last_updated : Int
deriving DecidableEq

/-- The normalized filter dict produced by `parse_filters`. -/
structure FilterF where
  days : Int
  since : Option Int
  scope : String
  office_id : Option String
  city : Option String
  barangay : Option String
  category : Option String
deriving DecidableEq

/-- One `address_components` entry of a geocoding result. -/
structure AddressComponent where
  types : List String
  long_name : String
deriving DecidableEq

/-- One result of the geocoding provider's response. -/
structure GeoResult where
  address_components : List AddressComponent
deriving DecidableEq

/-! ## OfficeAssigner: `find_nearest_office` (services.py lines 226-248)

The source computes `haversine_km` on floats; here the distance function
is an explicit parameter `dist` (all theorems hold for every `dist`, in
particular for the haversine instance). -/

/-- One iteration of the `find_nearest_office` scan: skip the office when
either coordinate fails `float(...)`, otherwise replace the running best
exactly when the new distance is strictly smaller. -/
def nearest_step (lat lng : ℚ) (dist : ℚ → ℚ → ℚ → ℚ → ℚ)
    (acc : Option (Office × ℚ)) (office : Office) : Option (Office × ℚ) :=
  match office.latitude, office.longitude with
  | some olat, some olng =>
    let d := dist lat lng olat olng
    match acc with
    | none => some (office, d)
    | some (_, best) => if d < best then some (office, d) else acc
  | _, _ => acc

/-- Source `find_nearest_office`: `None` on a non-numeric coordinate pair,
`None` on an empty office list, otherwise a linear scan keeping the
running minimum distance, skipping offices whose coordinates are not
numeric, replacing the running best only on a strictly smaller distance. -/
def find_nearest_office (latitude longitude : Option ℚ) (offices : List Office)
    (dist : ℚ → ℚ → ℚ → ℚ → ℚ) : Option Office :=
  match latitude, longitude with
  | some lat, some lng =>
    if offices.isEmpty then none
    else (offices.foldl (nearest_step lat lng dist) none).map Prod.fst
  | _, _ => none

/-- An office is usable by the scan iff both coordinates are numeric. -/
def validOffice (o : Office) : Bool := o.latitude.isSome && o.longitude.isSome

/-- Distance from the query point to an office (coordinates defaulted;
only used on offices with `validOffice`). -/
def distOf (dist : ℚ → ℚ → ℚ → ℚ → ℚ) (lat lng : ℚ) (o : Office) : ℚ :=
  dist lat lng (o.latitude.getD 0) (o.longitude.getD 0)

/-! ## ReportViewSet.perform_create office assignment (views lines 406-429) -/

/-- Source `perform_create` office assignment: nearest office when found,
else `PoliceOffice.objects.all().first()` (the head of the registry). -/
def perform_create_assign (latitude longitude : Option ℚ) (offices : List Office)
    (dist : ℚ → ℚ → ℚ → ℚ → ℚ) : Option Office :=
  match find_nearest_office latitude longitude offices dist with
  | some o => some o
  | none => offices.head?

/-! ## CheckpointActivityFilter (services.py lines 263-301) -/

/-- Source `get_active_checkpoints_list`: skip checkpoints with a missing
bound; for `start < end` keep iff `start ≤ now < end`; otherwise
(overnight, including `start = end`) keep iff `now ≥ start ∨ now < end`. -/
def get_active_checkpoints_list (now : Nat) : List Checkpoint → List Checkpoint
  | [] => []
  | cp :: rest =>
    match cp.time_start, cp.time_end with
    | some s, some e =>
      if s < e then
        if s ≤ now ∧ now < e then cp :: get_active_checkpoints_list now rest
        else get_active_checkpoints_list now rest
      else
        if now ≥ s ∨ now < e then cp :: get_active_checkpoints_list now rest
        else get_active_checkpoints_list now rest
    | _, _ => get_active_checkpoints_list now rest

/-- Activity predicate as the claim states it: missing bound → inactive;
normal window `start < end` → `start ≤ now < end`; `start ≥ end`
(overnight, degenerate case included) → `now ≥ start ∨ now < end`. -/
def is_active_claim (now : Nat) (cp : Checkpoint) : Bool :=
  match cp.time_start, cp.time_end with
  | some s, some e =>
    if s < e then decide (s ≤ now ∧ now < e)
    else decide (now ≥ s ∨ now < e)
  | _, _ => false

/-! ## AnalyticsFilterBuilder: `parse_filters` (services.py lines 311-346) -/

/-- Python `int(...)` on a string: surrounding whitespace allowed, then an
optional sign and a non-empty digit run; anything else raises
(`none` here).  (Digit-group underscores are not modelled.) -/
def pyInt (s : String) : Option Int :=
  let cs := ((s.data.dropWhile Char.isWhitespace).reverse.dropWhile Char.isWhitespace).reverse
  let core := match cs with
    | c :: rest => if c == '-' || c == '+' then rest else cs
    | [] => []
  if core.isEmpty then none
  else if core.all Char.isDigit then
    let n : Nat := core.foldl (fun acc c => acc * 10 + (c.toNat - 48)) 0
    some (if cs.head? == some '-' then -(n : Int) else (n : Int))
  else none

/-- The `days` extraction of `parse_filters`:
`int(request.query_params.get('days', 30))` — the conversion raises
(modelled as `Except.error`) when the parameter is present but not
integer-formatted; the default 30 applies only when it is absent. -/
def parse_days (qdays : Option String) : Except String Int :=
  match qdays with
  | none => Except.ok (30 : Int)
  | some s =>
    match pyInt s with
    | some d => Except.ok d
    | none => Except.error "ValueError: invalid literal for int"

/-- Source `parse_filters`: the `days` conversion first (whose error
propagates), then `scope` defaulting falsy values to `'all'` and
lowercasing, a `category` equal to `'all'` case-insensitively being
normalized to `None`, and `since` being `None` when `days = 0`, else
now minus `days` days. -/
def parse_filters (qdays qscope qoffice qcity qbarangay qcategory : Option String)
    (now : Int) : Except String FilterF :=
  match parse_days qdays with
  | Except.error e => Except.error e
  | Except.ok days =>
    let scope := pyLower (match qscope with
      | none => "all"
      | some s => if s == "" then "all" else s)
    let category := if pyTruthy qcategory && (pyLower (qcategory.getD "") == "all")
      then none else qcategory
    let since := if days == 0 then none else some (now - days * 86400)
    Except.ok
      { days := days, since := since, scope := scope, office_id := qoffice,
        city := qcity, barangay := qbarangay, category := category }

/-! ## AggregationEngine filters (services.py lines 350-391) -/

/-- Truthiness-guarded case-insensitive match of an optional field against
a filter string (Django `field__iexact=value`; a NULL field never
matches). -/
def fieldIeq (field : Option String) (v : String) : Bool :=
  match field with
  | some x => ieq x v
  | none => false

/-- Source `apply_common_filters`: created-date cutoff, city (and, only
together with it, barangay) matched case-insensitively, category matched
case-insensitively. -/
def apply_common_filters (qs : List Report) (f : FilterF) : List Report :=
  let qs1 := match f.since with
    | some s => qs.filter (fun r => s ≤ r.created_at)
    | none => qs
  let qs2 := if pyTruthy f.city then
      let byCity := qs1.filter (fun r => fieldIeq r.location_city (f.city.getD ""))
      if pyTruthy f.barangay then
        byCity.filter (fun r => fieldIeq r.location_barangay (f.barangay.getD ""))
      else byCity
    else qs1
  if pyTruthy f.category then
    qs2.filter (fun r => fieldIeq r.category (f.category.getD ""))
  else qs2

/-- Source `apply_resolved_date_filter`: keep rows whose `updated_at` is
past the cutoff, falling back to `created_at` when `updated_at` is NULL. -/
def apply_resolved_date_filter (qs : List Report) (since : Option Int) : List Report :=
  match since with
  | none => qs
  | some s =>
    qs.filter (fun r =>
      match r.updated_at with
      | some u => s ≤ u
      | none => s ≤ r.created_at)

/-- Case-insensitive Resolved-status test (`status__iexact='Resolved'`). -/
def isResolvedRow (r : Report) : Bool := ieq r.status "Resolved"

/-! ## format_duration (services.py lines 395-415) -/

/-- Python `f"{n:02d}"`: decimal representation zero-padded to width 2. -/
def pad2 (n : Int) : String :=
  let s := toString n
  if s.length < 2 then "0" ++ s else s

/-- Source `format_duration` on an optional duration in integer seconds:
`"N/A"` when the value is falsy (`None` or a zero duration), otherwise
floor-divide out whole days and print `"{days}d "` (when `days` is
truthy, i.e. nonzero) followed by zero-padded `HH:MM:SS`. -/
def format_duration : Option Int → String
  | none => "N/A"
  | some t =>
    if t == 0 then "N/A"
    else
      let days := t.ediv 86400
      let rem := t.emod 86400
      let h := rem.ediv 3600
      let m := (rem.emod 3600).ediv 60
      let s := rem.emod 60
      (if days ≠ 0 then toString days ++ "d " else "") ++
        pad2 h ++ ":" ++ pad2 m ++ ":" ++ pad2 s

/-- The claim's format for a duration: zero-padded `HH:MM:SS` of the
remainder after removing whole days, prefixed by `"{days}d "` exactly
when the whole-day count is positive. -/
def duration_hhmmss_claim (t : Int) : String :=
  let days := t.ediv 86400
  let rem := t.emod 86400
  (if 0 < days then toString days ++ "d " else "") ++
    pad2 (rem.ediv 3600) ++ ":" ++ pad2 ((rem.emod 3600).ediv 60) ++ ":" ++ pad2 (rem.emod 60)

/-! ## Grouping (models `values(...).annotate(report_count=Count(...))`) -/

/-- Distinct keys of a list with their multiplicities: one pair per
distinct element, its count in the list attached.  Models an SQL
`GROUP BY` + `COUNT(*)` (row order is irrelevant: the callers either
re-sort or treat the result as a keyed set). -/
def group_counts {α : Type} [DecidableEq α] (l : List α) : List (α × Nat) :=
  l.dedup.map (fun k => (k, l.count k))

/-! ## build_top_locations (services.py lines 441-518) -/

/-- A result row of `build_top_locations`. -/
structure LocRow where
  location_city : Option String
  location_barangay : Option String
  report_count : Nat
  report_percent : ℚ
deriving DecidableEq

/-- The base queryset of `build_top_locations` /
`build_category_concentration`: Resolved (case-insensitively), common
filters, then the resolved-date filter. -/
def resolvedFilteredBase (reports : List Report) (f : FilterF) : List Report :=
  apply_resolved_date_filter (apply_common_filters (reports.filter isResolvedRow) f) f.since

/-- The (city, barangay) grouping key of a report. -/
def locKey (r : Report) : Option String × Option String :=
  (r.location_city, r.location_barangay)

/-- The full (uncapped, unsorted) group list of `build_top_locations`'
grouping branches. -/
def top_location_groups (reports : List Report) (f : FilterF) :
    List ((Option String × Option String) × Nat) :=
  group_counts ((resolvedFilteredBase reports f).map locKey)

/-- SQL ascending order on a nullable text column, NULLs last. -/
def optStrLe (a b : Option String) : Prop :=
  match a, b with
  | some x, some y => x ≤ y
  | some _, none => True
  | none, some _ => False
  | none, none => True

instance : DecidableRel optStrLe := by
  intro a b
  unfold optStrLe
  match a, b with
  | some x, some y => exact inferInstanceAs (Decidable (x ≤ y))
  | some _, none => exact inferInstanceAs (Decidable True)
  | none, some _ => exact inferInstanceAs (Decidable False)
  | none, none => exact inferInstanceAs (Decidable True)

/-- SQL ascending strict order on a nullable text column, NULLs last. -/
def optStrLt (a b : Option String) : Prop :=
  match a, b with
  | some x, some y => x < y
  | some _, none => True
  | none, _ => False

instance : DecidableRel optStrLt := by
  intro a b
  unfold optStrLt
  match a, b with
  | some x, some y => exact inferInstanceAs (Decidable (x < y))
  | some _, none => exact inferInstanceAs (Decidable True)
  | none, some _ => exact inferInstanceAs (Decidable False)
  | none, none => exact inferInstanceAs (Decidable False)

/-- `ORDER BY report_count DESC, location_city, location_barangay`. -/
def locRowOrder (a b : (Option String × Option String) × Nat) : Prop :=
  b.2 < a.2 ∨ (a.2 = b.2 ∧ (optStrLt a.1.1 b.1.1
    ∨ (a.1.1 = b.1.1 ∧ optStrLe a.1.2 b.1.2)))

instance : DecidableRel locRowOrder := by
  intro a b
  unfold locRowOrder
  exact inferInstance

/-- Distinct non-NULL, non-empty values of a column, alphabetically
sorted and capped (models the `values_list(...).exclude(...).distinct()
.order_by(...)[:cap]` pipelines for the dropdown option lists). -/
def distinct_sorted_capped (vals : List (Option String)) (cap : Nat) : List String :=
  (((vals.filterMap id).filter (fun s => !(s == ""))).dedup.insertionSort (· ≤ ·)).take cap

/-- The rows of `build_top_locations` before percentages: the sorted,
200-capped group list in the grouping branches, or the single synthetic
(city, barangay, total) row when both location filters are present. -/
def top_location_items (reports : List Report) (f : FilterF) :
    List ((Option String × Option String) × Nat) :=
  if !(pyTruthy f.city) || !(pyTruthy f.barangay) then
    ((top_location_groups reports f).insertionSort locRowOrder).take 200
  else
    [((f.city, f.barangay), (resolvedFilteredBase reports f).length)]

/-- The result of `build_top_locations`. -/
structure TopLocations where
  filters : FilterF
  total_resolved : Nat
  results : List LocRow
  available_cities : List String
  available_barangays : List String
deriving DecidableEq

/-- Source `build_top_locations`: group the resolved filtered base by
(city, barangay) (or emit the single synthetic row when both a city and
a barangay filter are present), order by count descending then city then
barangay, cap at 200 groups, and attach
`report_percent = count/total*100` (0 when `total = 0`). -/
def build_top_locations (reports : List Report) (f : FilterF) : TopLocations :=
  let base := resolvedFilteredBase reports f
  let total := base.length
  let fOptions : FilterF := { f with city := none, barangay := none }
  let baseOptions := apply_resolved_date_filter
    (apply_common_filters (reports.filter isResolvedRow) fOptions) fOptions.since
  let available_cities :=
    distinct_sorted_capped (baseOptions.map (fun r => r.location_city)) 100
  let available_barangays :=
    if pyTruthy f.city then
      distinct_sorted_capped
        ((baseOptions.filter (fun r => fieldIeq r.location_city (f.city.getD ""))).map
          (fun r => r.location_barangay)) 200
    else []
  let items := top_location_items reports f
  let withPct := items.map (fun it =>
    { location_city := it.1.1, location_barangay := it.1.2, report_count := it.2,
      report_percent := if total = 0 then 0 else (it.2 : ℚ) / (total : ℚ) * 100 : LocRow })
  { filters := f, total_resolved := total, results := withPct,
    available_cities := available_cities, available_barangays := available_barangays }

/-! ## SummaryCounterMaintainer: incremental bump
(ReportViewSet.perform_update, views lines 432-471) -/

/-- Key equality of a summary row against a concrete (city, barangay,
category) triple (the ORM `get_or_create` matches these exactly). -/
def srowKeyEq (c b g : String) (r : SRow) : Bool :=
  r.location_city == c && r.location_barangay == b && r.category == some g

/-- The (city, barangay, category) key of a summary row. -/
def srowKey (r : SRow) : String × String × Option String :=
  (r.location_city, r.location_barangay, r.category)

/-- The `report_count` of the (first) row with the given key, 0 when the
key is absent. -/
def summary_count (tbl : List SRow) (c b g : String) : Int :=
  match tbl.find? (srowKeyEq c b g) with
  | some r => r.report_count
  | none => 0

/-- Core of `_bump_summary` once the key is known non-empty:
`get_or_create` the row with `report_count` defaulting to 0, add `delta`
and stamp `last_updated`, then reset the row to 0 if its count went
negative.  (The ORM addresses the unique matching row; modelled as
first-match update, append on absence.) -/
def bump_core (tbl : List SRow) (c b g : String) (delta now : Int) : List SRow :=
  match tbl with
  | [] => [{ location_city := c, location_barangay := b, category := some g,
             report_count := if 0 + delta < 0 then 0 else 0 + delta, last_updated := now }]
  | r :: rest =>
    if srowKeyEq c b g r then
      { r with report_count := if r.report_count + delta < 0 then 0 else r.report_count + delta,
               last_updated := now } :: rest
    else r :: bump_core rest c b g delta now

/-- Source `_bump_summary`: a no-op when any member of the triple is
`None` or empty, otherwise `bump_core`. -/
def bump_summary (tbl : List SRow) (city barangay category : Option String)
    (delta now : Int) : List SRow :=
  if !(pyTruthy city) || !(pyTruthy barangay) || !(pyTruthy category) then tbl
  else bump_core tbl (city.getD "") (barangay.getD "") (category.getD "") delta now

/-- `serializer.validated_data.get('status', prev_status)`. -/
def effective_status (validated prev : Option String) : Option String :=
  match validated with
  | some s => some s
  | none => prev

/-- Source `perform_update` summary maintenance: on a transition into
`Resolved` bump the report's post-update triple by +1; on a transition
out of `Resolved` bump the pre-update triple by -1. -/
def perform_update_bumps (tbl : List SRow) (prevStatus validatedStatus : Option String)
    (prevCity prevBarangay prevCategory postCity postBarangay postCategory : Option String)
    (now : Int) : List SRow :=
  let newStatus := effective_status validatedStatus prevStatus
  let tbl1 := if !(prevStatus == some "Resolved") && (newStatus == some "Resolved") then
      bump_summary tbl postCity postBarangay postCategory 1 now
    else tbl
  if (prevStatus == some "Resolved") && !(newStatus == some "Resolved") then
    bump_summary tbl1 prevCity prevBarangay prevCategory (-1) now
  else tbl1

/-! ## SummaryCounterMaintainer: full rebuild
(AnalyticsUpdateAPIView.post, views lines 1146-1204) -/

/-- Coalesced grouping key of the rebuild:
`(city-or-empty, barangay-or-Unknown, category)`. -/
def coalesce_key (r : Report) : String × String × Option String :=
  (r.location_city.getD "", r.location_barangay.getD "Unknown", r.category)

/-- The rebuild's aggregation: Resolved reports (case-insensitively)
grouped by the coalesced key with counts. -/
def aggregate_resolved (reports : List Report) :
    List ((String × String × Option String) × Nat) :=
  group_counts ((reports.filter isResolvedRow).map coalesce_key)

/-- `update_or_create` by key: replace the count and timestamp of the
(first) matching row, append a fresh row when the key is absent. -/
def upsert_row (tbl : List SRow) (k : String × String × Option String)
    (cnt : Nat) (now : Int) : List SRow :=
  match tbl with
  | [] => [{ location_city := k.1, location_barangay := k.2.1, category := k.2.2,
             report_count := (cnt : Int), last_updated := now }]
  | r :: rest =>
    if r.location_city == k.1 && r.location_barangay == k.2.1 && r.category == k.2.2 then
      { r with report_count := (cnt : Int), last_updated := now } :: rest
    else r :: upsert_row rest k cnt now

/-- Inner loop of the rebuild: upsert every aggregated group, skipping
groups whose coalesced city is empty (`if not item['_city']: continue`). -/
def rebuild_fold (tbl : List SRow)
    (items : List ((String × String × Option String) × Nat)) (now : Int) : List SRow :=
  items.foldl (fun t it => if it.1.1 == "" then t else upsert_row t it.1 it.2 now) tbl

/-- Source rebuild body: delete every existing summary row
(`SummaryAnalytics.objects.all().delete()`, so the prior table is
discarded wholesale), then upsert one row per aggregated group with a
non-empty coalesced city. -/
def analytics_rebuild (prior : List SRow) (reports : List Report) (now : Int) : List SRow :=
  let cleared : List SRow := []
  rebuild_fold cleared (aggregate_resolved reports) now

/-- The table the claim describes: one row per aggregated group, empty
cities included (differs from the source exactly on the skipped
empty-city groups). -/
def rebuild_table_claim (reports : List Report) (now : Int) : List SRow :=
  (aggregate_resolved reports).map (fun it =>
    { location_city := it.1.1, location_barangay := it.1.2.1, category := it.1.2.2,
      report_count := (it.2 : Int), last_updated := now })

/-- Outcomes of `AnalyticsUpdateAPIView.post` (HTTP 200 / 409 / a raised
error propagating out of the `try`). -/
inductive ApiOutcome where
  | ok
  | conflict
  | error
deriving DecidableEq

/-- Source `AnalyticsUpdateAPIView.post` after authentication: when the
advisory cache lock (`cache.add`, 60 s TTL) is already held, fail fast
with HTTP 409 and touch nothing; otherwise run the rebuild body under
`try/finally`, the `finally` always deleting the lock.  `failAfter`
injects an exception after that many upsert steps (`none` = no failure);
the returned `Bool` is the final lock state. -/
def analytics_update_post (lockHeld : Bool) (tbl : List SRow) (reports : List Report)
    (failAfter : Option Nat) (now : Int) : ApiOutcome × Bool × List SRow :=
  if lockHeld then (ApiOutcome.conflict, true, tbl)
  else
    match failAfter with
    | none => (ApiOutcome.ok, false, rebuild_fold [] (aggregate_resolved reports) now)
    | some n => (ApiOutcome.error, false, rebuild_fold [] ((aggregate_resolved reports).take n) now)

/-- Number of Resolved reports (case-insensitively) whose coalesced key is
the given triple — the claim's naive full count for one group. -/
def resolved_group_count (reports : List Report) (c b : String) (g : Option String) : Nat :=
  ((reports.filter isResolvedRow).filter (fun r => coalesce_key r = (c, b, g))).length

/-! ## AddressResolver: `_parse_address_components` (services.py lines 99-169) -/

/-- Accumulator of the component scan (the seven local variables of the
source function). -/
structure ParseState where
  city : Option String
  barangay : Option String
  barangay_fallback : Option String
  street_number : Option String
  route : Option String
  premise : Option String
  poi : Option String
deriving DecidableEq

/-- The all-`None` initial state. -/
def initParseState : ParseState :=
  { city := none, barangay := none, barangay_fallback := none,
    street_number := none, route := none, premise := none, poi := none }

/-- Component matches the high-priority barangay types
(`sublocality_level_2`/`neighborhood`/`administrative_area_level_4`/`_5`). -/
def compHigh (c : AddressComponent) : Bool :=
  c.types.contains "sublocality_level_2" || c.types.contains "neighborhood" ||
    c.types.contains "administrative_area_level_4" ||
    c.types.contains "administrative_area_level_5"

/-- Component matches `sublocality_level_1`. -/
def compSL1 (c : AddressComponent) : Bool := c.types.contains "sublocality_level_1"

/-- Component matches a city type
(`locality`/`administrative_area_level_3`/`administrative_area_level_2`). -/
def compCity (c : AddressComponent) : Bool :=
  c.types.contains "locality" || c.types.contains "administrative_area_level_3" ||
    c.types.contains "administrative_area_level_2"

/-- Per-component update of the source scan.  Each slot keeps its first
truthy value.  The source's two barangay branches and two city `if`s all
assign the same `value`, so they are merged into single conditions here
(value-preserving: whichever branch fires, the assigned value is
`component['long_name']`). -/
def parse_step (st : ParseState) (c : AddressComponent) : ParseState :=
  let v := c.long_name
  { street_number := if c.types.contains "street_number" && !(pyTruthy st.street_number)
      then some v else st.street_number,
    route := if c.types.contains "route" && !(pyTruthy st.route) then some v else st.route,
    premise := if (c.types.contains "premise" || c.types.contains "subpremise")
        && !(pyTruthy st.premise) then some v else st.premise,
    poi := if c.types.contains "point_of_interest" && !(pyTruthy st.poi)
      then some v else st.poi,
    barangay := if !(pyTruthy st.barangay) && compHigh c then some v else st.barangay,
    barangay_fallback := if !(pyTruthy st.barangay) && !(compHigh c) && compSL1 c
        && !(pyTruthy st.barangay_fallback) then some v else st.barangay_fallback,
    city := if !(pyTruthy st.city) && compCity c then some v else st.city }

/-- Python `str.strip()`. -/
def pyStrip (s : String) : String :=
  String.mk (((s.data.dropWhile Char.isWhitespace).reverse.dropWhile Char.isWhitespace).reverse)

/-- `' '.join(filter(None, parts)).strip()`. -/
def joinStreet (parts : List (Option String)) : String :=
  pyStrip (String.intercalate " " ((parts.filterMap id).filter (fun s => !(s == ""))))

/-- Source `_parse_address_components`: `(None, None, None)` on an empty
result list; otherwise scan every component of every result with
`parse_step`, then apply the `sublocality_level_1` fallback, build the
street line (`street_number route`, else premise, else
point-of-interest) and append `", {barangay}"` when both the line and
the barangay are truthy.  Returns `(city, barangay, address_line)`. -/
def parse_address_components (results : List GeoResult) :
    Option String × Option String × Option String :=
  if results.isEmpty then (none, none, none)
  else
    let st := results.foldl (fun st r => r.address_components.foldl parse_step st)
      initParseState
    let barangay := if !(pyTruthy st.barangay) && pyTruthy st.barangay_fallback
      then st.barangay_fallback else st.barangay
    let address_line :=
      if pyTruthy st.route || pyTruthy st.street_number then
        some (joinStreet [st.street_number, st.route])
      else if pyTruthy st.premise then st.premise
      else if pyTruthy st.poi then st.poi
      else none
    let address_line := if pyTruthy address_line && pyTruthy barangay then
        some (address_line.getD "" ++ ", " ++ barangay.getD "") else address_line
    (st.city, barangay, address_line)

/-- The parse as the (amended) claim describes it: a whole-scan search —
barangay is the first value among components carrying a high-priority
barangay type, else the first `sublocality_level_1` value; city is the
first value among components carrying any city type; street pieces are
first-of-kind; the address line is `"{street_number} {route}"` with
missing parts skipped, else premise, else point of interest, with
`", {barangay}"` appended exactly when both are resolved. -/
def parse_address_components_claim (results : List GeoResult) :
    Option String × Option String × Option String :=
  if results.isEmpty then (none, none, none)
  else
    let comps := (results.map (fun r => r.address_components)).flatten
    let firstWith := fun (p : AddressComponent → Bool) =>
      match comps.find? p with
      | some c => some c.long_name
      | none => none
    let barangay := match firstWith compHigh with
      | some v => some v
      | none => firstWith compSL1
    let city := firstWith compCity
    let street_number := firstWith (fun c => c.types.contains "street_number")
    let route := firstWith (fun c => c.types.contains "route")
    let premise := firstWith (fun c => c.types.contains "premise"
      || c.types.contains "subpremise")
    let poi := firstWith (fun c => c.types.contains "point_of_interest")
    let address_line :=
      if pyTruthy route || pyTruthy street_number then
        some (joinStreet [street_number, route])
      else if pyTruthy premise then premise
      else if pyTruthy poi then poi
      else none
    let address_line := if pyTruthy address_line && pyTruthy barangay then
        some (address_line.getD "" ++ ", " ++ barangay.getD "") else address_line
    (city, barangay, address_line)

/-! ## Theorems -/

/-- C4: for every checkpoint and evaluation time-of-day, a missing bound
makes the checkpoint inactive; a normal window `start < end` is active
iff `start ≤ now < end`; `start ≥ end` (overnight, the degenerate
`start = end` case being active for every `now`) is active iff
`now ≥ start ∨ now < end`; and the filter returns exactly the active
checkpoints in input order. -/
theorem C4_active_checkpoints :
    (∀ (now : Nat) (l : List Checkpoint),
      get_active_checkpoints_list now l = l.filter (is_active_claim now))
    ∧ (∀ (now s i : Nat),
      is_active_claim now { checkpoint_id := i, time_start := some s, time_end := some s } = true) := by
  constructor
  · intro now l
    induction l with
    | nil => rfl
    | cons cp rest ih =>
      obtain ⟨i, ts, te⟩ := cp
      cases ts with
      | none => simpa [get_active_checkpoints_list, is_active_claim, List.filter_cons] using ih
      | some s =>
        cases te with
        | none => simpa [get_active_checkpoints_list, is_active_claim, List.filter_cons] using ih
        | some e =>
          by_cases h1 : s < e
          · by_cases h2 : s ≤ now ∧ now < e <;>
              simp [get_active_checkpoints_list, is_active_claim, List.filter_cons, h1, h2, ih]
          · by_cases h2 : now ≥ s ∨ now < e <;>
              simp [get_active_checkpoints_list, is_active_claim, List.filter_cons, h1, h2, ih]
  · intro now s i
    simp [is_active_claim]
    omega

/-- C7 counterexample: a zero (hence non-null) duration is formatted as
`"N/A"`, contradicting the claim that `"N/A"` is returned exactly for
the null duration (Python `if not delta` also catches
`timedelta(0)`). -/
theorem C7_counterexample :
    format_duration (some 0) = "N/A" ∧ (some (0 : Int)) ≠ (none : Option Int) := by
  exact ⟨rfl, by decide⟩

/-- Helper for C7: a zero-padded field is never empty. -/
theorem pad2_length_pos (n : Int) : 1 ≤ (pad2 n).length := by
  unfold pad2
  have h0 : ("0" : String).length = 1 := rfl
  by_cases h : (toString n).length < 2
  · simp only [h, if_true, String.length_append, h0]
    omega
  · simp only [h, if_false]
    omega

/-- Helper for C7: a nonzero duration formats to a string of length at
least 5, hence never to `"N/A"`. -/
theorem format_duration_length (t : Int) (h : t ≠ 0) :
    5 ≤ (format_duration (some t)).length := by
  unfold format_duration
  have hb : (t == 0) = false := by simpa using h
  simp only [hb, Bool.false_eq_true, if_false, String.length_append]
  have h1 := pad2_length_pos ((t.emod 86400).ediv 3600)
  have h2 := pad2_length_pos (((t.emod 86400).emod 3600).ediv 60)
  have h3 := pad2_length_pos ((t.emod 86400).emod 60)
  have hc : (":" : String).length = 1 := rfl
  rw [hc]
  omega

/-- C7 (amended): `format_duration` returns `"N/A"` exactly when its
input is null or a zero duration; every positive duration is rendered as
the zero-padded `HH:MM:SS` of the remainder after removing whole days,
prefixed with `"{days}d "` exactly when the whole-day count is
positive. -/
theorem C7_format_duration :
    (∀ d : Option Int, format_duration d = "N/A" ↔ (d = none ∨ d = some 0))
    ∧ (∀ t : Int, 0 < t → format_duration (some t) = duration_hhmmss_claim t) := by
  constructor
  · intro d
    constructor
    · intro h
      match d with
      | none => exact Or.inl rfl
      | some t =>
        by_cases ht : t = 0
        · exact Or.inr (by rw [ht])
        · exfalso
          have hl := format_duration_length t ht
          have h3 : ("N/A" : String).length = 3 := rfl
          rw [h, h3] at hl
          omega
    · intro h
      rcases h with h | h <;> rw [h] <;> rfl
  · intro t ht
    unfold format_duration duration_hhmmss_claim
    have hb : (t == 0) = false := by simpa using (by omega : t ≠ 0)
    have hdays : 0 ≤ t.ediv 86400 := Int.ediv_nonneg (by omega) (by norm_num)
    have hiff : (t.ediv 86400 ≠ 0) ↔ (0 < t.ediv 86400) := by omega
    simp only [hb, Bool.false_eq_true, if_false]
    by_cases hd : 0 < t.ediv 86400
    · rw [if_pos (hiff.mpr hd), if_pos hd]
    · rw [if_neg (fun hne => hd (hiff.mp hne)), if_neg hd]

/-- C7 witness: the spec's example of 2 days 3:45:30 (186330 s) goes
through the amended formatting equation. -/
theorem C7_witness :
    format_duration (some 186330) = duration_hhmmss_claim 186330 :=
  C7_format_duration.2 186330 (by decide)

/-- C9: when `find_nearest_office` returns `None`, `perform_create`
assigns the first office of the registry, so a newly created report gets
a non-null office whenever at least one office exists. -/
theorem C9_perform_create_assignment :
    (∀ lat lng offices dist, find_nearest_office lat lng offices dist = none →
      perform_create_assign lat lng offices dist = offices.head?)
    ∧ (∀ lat lng offices dist, offices ≠ [] →
      (perform_create_assign lat lng offices dist).isSome = true) := by
  constructor
  · intro lat lng offices dist h
    unfold perform_create_assign
    rw [h]
  · intro lat lng offices dist h
    unfold perform_create_assign
    cases hfn : find_nearest_office lat lng offices dist with
    | some o => rfl
    | none =>
      match offices with
      | [] => exact absurd rfl h
      | o :: rest => rfl

/-- C9 witness: with one office whose coordinates are not numeric and no
request coordinates, the report is still assigned (to that office, the
registry head). -/
theorem C9_witness :
    (perform_create_assign none none
      [{ office_id := 1, latitude := none, longitude := none }]
      (fun _ _ _ _ => 0)).isSome = true :=
  C9_perform_create_assignment.2 none none
    [{ office_id := 1, latitude := none, longitude := none }]
    (fun _ _ _ _ => 0) (by decide)

/-- C10: `parse_filters` is not total in the `days` parameter: an absent
parameter yields the default 30, a present integer-formatted parameter
yields its value, and a present non-integer parameter makes the `int()`
conversion raise — the error propagates instead of any default being
applied. -/
theorem C10_parse_filters_days :
    (∀ qs qo qc qb qg now, ∃ f, parse_filters none qs qo qc qb qg now = Except.ok f
      ∧ f.days = 30)
    ∧ (∀ s qs qo qc qb qg now, pyInt s = none →
      parse_filters (some s) qs qo qc qb qg now
        = Except.error "ValueError: invalid literal for int")
    ∧ (∀ s n qs qo qc qb qg now, pyInt s = some n →
      ∃ f, parse_filters (some s) qs qo qc qb qg now = Except.ok f ∧ f.days = n) := by
  refine ⟨?_, ?_, ?_⟩
  · intro qs qo qc qb qg now
    exact ⟨_, rfl, rfl⟩
  · intro s qs qo qc qb qg now h
    have hd : parse_days (some s) = Except.error "ValueError: invalid literal for int" := by
      simp only [parse_days, h]
    unfold parse_filters
    rw [hd]
  · intro s n qs qo qc qb qg now h
    have hd : parse_days (some s) = Except.ok n := by
      simp only [parse_days, h]
    unfold parse_filters
    rw [hd]
    exact ⟨_, rfl, rfl⟩

/-- C10 witness: `days=abc` raises; the error is the result, no default
is substituted. -/
theorem C10_witness :
    parse_filters (some "abc") none none none none none 0
      = Except.error "ValueError: invalid literal for int" :=
  C10_parse_filters_days.2.1 "abc" none none none none none 0 (by decide)

/-- C5 counterexample: with a numeric point and exactly one office whose
stored coordinates are not numeric, `find_nearest_office` returns
`None` — the claim's "with one office it always returns it" (and
"otherwise it returns an office…") fails for an office set whose only
member has non-numeric coordinates. -/
theorem C5_counterexample :
    find_nearest_office (some 0) (some 0)
        [{ office_id := 1, latitude := none, longitude := none }] (fun _ _ _ _ => 0) = none
    ∧ find_nearest_office (some 0) (some 0)
        [{ office_id := 1, latitude := none, longitude := none }] (fun _ _ _ _ => 0)
      ≠ some { office_id := 1, latitude := none, longitude := none } := by
  exact ⟨rfl, by decide⟩

/-- Helper for C5/C9: the scan step leaves the accumulator unchanged on an
office with non-numeric coordinates. -/
theorem nearest_step_invalid (lat lng : ℚ) (dist : ℚ → ℚ → ℚ → ℚ → ℚ)
    (o : Office) (h : validOffice o = false) (acc : Option (Office × ℚ)) :
    nearest_step lat lng dist acc o = acc := by
  unfold validOffice at h
  cases hla : o.latitude with
  | none => unfold nearest_step; rw [hla]
  | some la =>
    cases hlo : o.longitude with
    | none => unfold nearest_step; rw [hla, hlo]
    | some lo => rw [hla, hlo] at h; simp at h

/-- Helper for C5: the scan step on an office with numeric coordinates
takes it as the new best exactly when its distance strictly improves. -/
theorem nearest_step_valid (lat lng : ℚ) (dist : ℚ → ℚ → ℚ → ℚ → ℚ)
    (o : Office) (h : validOffice o = true) (acc : Option (Office × ℚ)) :
    nearest_step lat lng dist acc o =
      match acc with
      | none => some (o, distOf dist lat lng o)
      | some (b, best) =>
        if distOf dist lat lng o < best then some (o, distOf dist lat lng o) else some (b, best) := by
  unfold validOffice at h
  rw [Bool.and_eq_true] at h
  obtain ⟨la, hla⟩ := Option.isSome_iff_exists.mp h.1
  obtain ⟨lo, hlo⟩ := Option.isSome_iff_exists.mp h.2
  unfold nearest_step distOf
  rw [hla, hlo]
  match acc with
  | none => rfl
  | some (b, best) => rfl

/-- Helper for C5: from a seeded best, the scan returns the running
minimum over offices with numeric coordinates, the best being replaced
only by strictly smaller distances (first-encountered tie-break). -/
theorem nearest_fold_min (lat lng : ℚ) (dist : ℚ → ℚ → ℚ → ℚ → ℚ) :
    ∀ (l : List Office) (b : Office) (db : ℚ), db = distOf dist lat lng b →
    ∃ o d, l.foldl (nearest_step lat lng dist) (some (b, db)) = some (o, d)
      ∧ d = distOf dist lat lng o
      ∧ (∀ o' ∈ l, validOffice o' = true → d ≤ distOf dist lat lng o')
      ∧ ((o = b ∧ d = db)
        ∨ (validOffice o = true ∧ d < db
            ∧ ∃ l₁ l₂, l = l₁ ++ o :: l₂
              ∧ ∀ o' ∈ l₁, validOffice o' = true → d < distOf dist lat lng o')) := by
  intro l
  induction l with
  | nil =>
    intro b db hdb
    exact ⟨b, db, rfl, hdb, by simp, Or.inl ⟨rfl, rfl⟩⟩
  | cons o₀ rest ih =>
    intro b db hdb
    by_cases hv : validOffice o₀ = true
    · rw [List.foldl_cons, nearest_step_valid lat lng dist o₀ hv]
      by_cases hlt : distOf dist lat lng o₀ < db
      · simp only [if_pos hlt]
        obtain ⟨o, d, hfold, hd, hmin, hcase⟩ := ih o₀ (distOf dist lat lng o₀) rfl
        refine ⟨o, d, hfold, hd, ?_, ?_⟩
        · intro o' ho' hvo'
          rcases List.mem_cons.mp ho' with h | h
          · subst h
            rcases hcase with ⟨_, hdeq⟩ | ⟨_, hdlt, _⟩
            · exact le_of_eq hdeq
            · exact le_of_lt hdlt
          · exact hmin o' h hvo'
        · rcases hcase with ⟨hoe, hdeq⟩ | ⟨hvo, hdlt, l₁, l₂, heq, hstrict⟩
          · exact Or.inr ⟨hoe ▸ hv, hdeq ▸ hlt, [], rest, by simp [hoe], by simp⟩
          · refine Or.inr ⟨hvo, lt_trans hdlt hlt, o₀ :: l₁, l₂, by rw [heq]; rfl, ?_⟩
            intro o' ho' hvo'
            rcases List.mem_cons.mp ho' with h | h
            · exact h ▸ hdlt
            · exact hstrict o' h hvo'
      · simp only [if_neg hlt]
        obtain ⟨o, d, hfold, hd, hmin, hcase⟩ := ih b db hdb
        have hdle : d ≤ db := by
          rcases hcase with ⟨_, hdeq⟩ | ⟨_, hdlt, _⟩
          · exact le_of_eq hdeq
          · exact le_of_lt hdlt
        refine ⟨o, d, hfold, hd, ?_, ?_⟩
        · intro o' ho' hvo'
          rcases List.mem_cons.mp ho' with h | h
          · exact h ▸ le_trans hdle (not_lt.mp hlt)
          · exact hmin o' h hvo'
        · rcases hcase with ⟨hoe, hdeq⟩ | ⟨hvo, hdlt, l₁, l₂, heq, hstrict⟩
          · exact Or.inl ⟨hoe, hdeq⟩
          · refine Or.inr ⟨hvo, hdlt, o₀ :: l₁, l₂, by rw [heq]; rfl, ?_⟩
            intro o' ho' hvo'
            rcases List.mem_cons.mp ho' with h | h
            · exact h ▸ lt_of_lt_of_le hdlt (not_lt.mp hlt)
            · exact hstrict o' h hvo'
    · rw [List.foldl_cons,
        nearest_step_invalid lat lng dist o₀ (Bool.not_eq_true _ ▸ hv) _]
      obtain ⟨o, d, hfold, hd, hmin, hcase⟩ := ih b db hdb
      refine ⟨o, d, hfold, hd, ?_, ?_⟩
      · intro o' ho' hvo'
        rcases List.mem_cons.mp ho' with h | h
        · exact absurd (h ▸ hvo') hv
        · exact hmin o' h hvo'
      · rcases hcase with ⟨hoe, hdeq⟩ | ⟨hvo, hdlt, l₁, l₂, heq, hstrict⟩
        · exact Or.inl ⟨hoe, hdeq⟩
        · refine Or.inr ⟨hvo, hdlt, o₀ :: l₁, l₂, by rw [heq]; rfl, ?_⟩
          intro o' ho' hvo'
          rcases List.mem_cons.mp ho' with h | h
          · exact absurd (h ▸ hvo') hv
          · exact hstrict o' h hvo'

/-- Helper for C5: from an empty accumulator, either every office is
skipped (result `none`), or the scan seeds at the first office with
numeric coordinates. -/
theorem nearest_fold_none (lat lng : ℚ) (dist : ℚ → ℚ → ℚ → ℚ → ℚ) :
    ∀ l : List Office,
    (l.foldl (nearest_step lat lng dist) none = none ∧ ∀ o ∈ l, validOffice o = false)
    ∨ ∃ l₁ v l₂, l = l₁ ++ v :: l₂ ∧ (∀ o ∈ l₁, validOffice o = false)
        ∧ validOffice v = true
        ∧ l.foldl (nearest_step lat lng dist) none
          = l₂.foldl (nearest_step lat lng dist) (some (v, distOf dist lat lng v)) := by
  intro l
  induction l with
  | nil => exact Or.inl ⟨rfl, by simp⟩
  | cons o₀ rest ih =>
    by_cases hv : validOffice o₀ = true
    · refine Or.inr ⟨[], o₀, rest, rfl, by simp, hv, ?_⟩
      rw [List.foldl_cons, nearest_step_valid lat lng dist o₀ hv]
    · have hnv : validOffice o₀ = false := Bool.not_eq_true _ ▸ hv
      rw [List.foldl_cons, nearest_step_invalid lat lng dist o₀ hnv]
      rcases ih with ⟨hfold, hall⟩ | ⟨l₁, v, l₂, heq, hall, hv', hfold⟩
      · refine Or.inl ⟨hfold, ?_⟩
        intro o ho
        rcases List.mem_cons.mp ho with h | h
        · exact h ▸ hnv
        · exact hall o h
      · refine Or.inr ⟨o₀ :: l₁, v, l₂, by rw [heq]; rfl, ?_, hv', hfold⟩
        intro o ho
        rcases List.mem_cons.mp ho with h | h
        · exact h ▸ hnv
        · exact hall o h

/-- C5 (amended): `find_nearest_office` returns `None` when the
coordinate pair is non-numeric or the office set is empty; whenever it
returns an office, that office has numeric coordinates and minimizes the
distance over all offices with numeric coordinates, every office with
numeric coordinates encountered earlier in iteration order being
strictly farther (first-encountered tie-break); with one office with
numeric coordinates it always returns it (it returns `None` when no
office has numeric coordinates). -/
theorem C5_find_nearest_office :
    (∀ lng offices dist, find_nearest_office none lng offices dist = none)
    ∧ (∀ lat offices dist, find_nearest_office lat none offices dist = none)
    ∧ (∀ lat lng dist, find_nearest_office (some lat) (some lng) [] dist = none)
    ∧ (∀ lat lng offices dist o,
        find_nearest_office (some lat) (some lng) offices dist = some o →
        validOffice o = true
        ∧ (∀ o' ∈ offices, validOffice o' = true →
            distOf dist lat lng o ≤ distOf dist lat lng o')
        ∧ ∃ l₁ l₂, offices = l₁ ++ o :: l₂
            ∧ ∀ o' ∈ l₁, validOffice o' = true →
                distOf dist lat lng o < distOf dist lat lng o')
    ∧ (∀ lat lng dist o, validOffice o = true →
        find_nearest_office (some lat) (some lng) [o] dist = some o) := by
  refine ⟨?_, ?_, ?_, ?_, ?_⟩
  · intro lng offices dist
    cases lng <;> rfl
  · intro lat offices dist
    cases lat <;> rfl
  · intro lat lng dist
    rfl
  · intro lat lng offices dist o h
    have hdef : find_nearest_office (some lat) (some lng) offices dist
        = if offices.isEmpty = true then none
          else (List.foldl (nearest_step lat lng dist) none offices).map Prod.fst := rfl
    rw [hdef] at h
    by_cases hemp : offices.isEmpty
    · rw [if_pos hemp] at h
      exact absurd h (by simp)
    · rw [if_neg hemp] at h
      rcases nearest_fold_none lat lng dist offices with ⟨hfold, _⟩ |
          ⟨l₁, v, l₂, heq, hinv, hv, hfold⟩
      · rw [hfold] at h
        exact absurd h (by simp)
      · rw [hfold] at h
        obtain ⟨o', d, hfold2, hd, hmin, hcase⟩ :=
          nearest_fold_min lat lng dist l₂ v (distOf dist lat lng v) rfl
        rw [hfold2] at h
        have ho : o' = o := Option.some.inj h
        subst ho
        have hdle : d ≤ distOf dist lat lng v := by
          rcases hcase with ⟨_, hdeq⟩ | ⟨_, hdlt, _⟩
          · exact le_of_eq hdeq
          · exact le_of_lt hdlt
        have hvo : validOffice o' = true := by
          rcases hcase with ⟨hoe, _⟩ | ⟨hvo, _, _⟩
          · exact hoe ▸ hv
          · exact hvo
        refine ⟨hvo, ?_, ?_⟩
        · intro o'' ho'' hvo''
          rw [heq] at ho''
          rcases List.mem_append.mp ho'' with h1 | h1
          · exact absurd hvo'' (by rw [hinv o'' h1]; simp)
          · rcases List.mem_cons.mp h1 with h2 | h2
            · exact hd ▸ (h2 ▸ hdle)
            · exact hd ▸ hmin o'' h2 hvo''
        · rcases hcase with ⟨hoe, hdeq⟩ | ⟨_, hdlt, m₁, m₂, hl₂, hstrict⟩
          · refine ⟨l₁, l₂, by rw [heq, hoe], ?_⟩
            intro o'' ho'' hvo''
            exact absurd hvo'' (by rw [hinv o'' ho'']; simp)
          · refine ⟨l₁ ++ v :: m₁, m₂, by rw [heq, hl₂]; simp, ?_⟩
            intro o'' ho'' hvo''
            rcases List.mem_append.mp ho'' with h1 | h1
            · exact absurd hvo'' (by rw [hinv o'' h1]; simp)
            · rcases List.mem_cons.mp h1 with h2 | h2
              · exact hd ▸ (h2 ▸ hdlt)
              · exact hd ▸ hstrict o'' h2 hvo''
  · intro lat lng dist o h
    unfold validOffice at h
    rw [Bool.and_eq_true] at h
    obtain ⟨la, hla⟩ := Option.isSome_iff_exists.mp h.1
    obtain ⟨lo, hlo⟩ := Option.isSome_iff_exists.mp h.2
    simp [find_nearest_office, nearest_step, hla, hlo]

/-- C5 witness: a single office with numeric coordinates is returned. -/
theorem C5_witness :
    find_nearest_office (some 0) (some 0)
      [{ office_id := 2, latitude := some 1, longitude := some 1 }]
      (fun _ _ _ _ => 0)
    = some { office_id := 2, latitude := some 1, longitude := some 1 } :=
  C5_find_nearest_office.2.2.2.2 0 0 (fun _ _ _ _ => 0)
    { office_id := 2, latitude := some 1, longitude := some 1 } (by decide)

/-- Helper for C1: effect of `bump_core` on the bumped key's count:
add the delta, then floor a negative result at zero. -/
theorem summary_count_bump_core (tbl : List SRow) (c b g : String) (delta now : Int) :
    summary_count (bump_core tbl c b g delta now) c b g =
      if summary_count tbl c b g + delta < 0 then 0 else summary_count tbl c b g + delta := by
  induction tbl with
  | nil =>
    simp [bump_core, summary_count, srowKeyEq, List.find?]
  | cons r rest ih =>
    by_cases hk : srowKeyEq c b g r = true
    · have hk2 : srowKeyEq c b g
          { r with report_count := if r.report_count + delta < 0 then 0 else r.report_count + delta,
                   last_updated := now } = true := by
        unfold srowKeyEq at hk ⊢
        exact hk
      simp [bump_core, summary_count, List.find?_cons, hk, hk2]
    · have hk' : srowKeyEq c b g r = false := by simpa using hk
      simp only [bump_core, hk', Bool.false_eq_true, if_false]
      simp only [summary_count, List.find?_cons, hk'] at ih ⊢
      exact ih

/-- Helper for C1: with a fully truthy triple the guard passes. -/
theorem bump_summary_some (tbl : List SRow) (c b g : String) (delta now : Int)
    (hc : c ≠ "") (hb : b ≠ "") (hg : g ≠ "") :
    bump_summary tbl (some c) (some b) (some g) delta now = bump_core tbl c b g delta now := by
  unfold bump_summary
  have h1 : pyTruthy (some c) = true := by simp [pyTruthy, hc]
  have h2 : pyTruthy (some b) = true := by simp [pyTruthy, hb]
  have h3 : pyTruthy (some g) = true := by simp [pyTruthy, hg]
  rw [h1, h2, h3]
  rfl

/-- Helper for C1: a null or empty member of the triple makes the bump a
no-op. -/
theorem bump_summary_noop (tbl : List SRow) (city barangay category : Option String)
    (delta now : Int)
    (h : pyTruthy city = false ∨ pyTruthy barangay = false ∨ pyTruthy category = false) :
    bump_summary tbl city barangay category delta now = tbl := by
  unfold bump_summary
  rcases h with h | h | h <;> rw [h] <;> simp

/-- Helper for C1: on a transition into Resolved only the post-update
increment branch runs. -/
theorem perform_update_bumps_up (tbl : List SRow) (prev vstat : Option String)
    (pc pb pg qc qb qg : Option String) (now : Int)
    (h1 : prev ≠ some "Resolved") (h2 : effective_status vstat prev = some "Resolved") :
    perform_update_bumps tbl prev vstat pc pb pg qc qb qg now
      = bump_summary tbl qc qb qg 1 now := by
  unfold perform_update_bumps
  have hb1 : (prev == some "Resolved") = false := beq_eq_false_iff_ne.mpr h1
  have hb2 : (effective_status vstat prev == some "Resolved") = true := beq_iff_eq.mpr h2
  simp [hb1, hb2]

/-- Helper for C1: on a transition out of Resolved only the pre-update
decrement branch runs. -/
theorem perform_update_bumps_down (tbl : List SRow) (prev vstat : Option String)
    (pc pb pg qc qb qg : Option String) (now : Int)
    (h1 : prev = some "Resolved") (h2 : effective_status vstat prev ≠ some "Resolved") :
    perform_update_bumps tbl prev vstat pc pb pg qc qb qg now
      = bump_summary tbl pc pb pg (-1) now := by
  unfold perform_update_bumps
  have hb1 : (prev == some "Resolved") = true := beq_iff_eq.mpr h1
  have hb2 : (effective_status vstat prev == some "Resolved") = false := beq_eq_false_iff_ne.mpr h2
  simp [hb1, hb2]

/-- C1: on a transition into Resolved the post-update triple's row count
rises by exactly 1 (the row being created at 0 first when absent); on a
transition out of Resolved the pre-update triple's count drops by 1 with
a negative result corrected to 0; a null or empty member of the
applicable triple makes the bump a no-op; and an up transition followed
by the reverse transition for the same triple restores the count and
never leaves it below 0. -/
theorem C1_perform_update_summary :
    (∀ (tbl : List SRow) (prev vstat pc pb pg : Option String) (c b g : String) (now : Int),
      prev ≠ some "Resolved" → effective_status vstat prev = some "Resolved" →
      c ≠ "" → b ≠ "" → g ≠ "" → 0 ≤ summary_count tbl c b g →
      summary_count
        (perform_update_bumps tbl prev vstat pc pb pg (some c) (some b) (some g) now) c b g
        = summary_count tbl c b g + 1)
    ∧ (∀ (tbl : List SRow) (prev vstat qc qb qg : Option String) (c b g : String) (now : Int),
      prev = some "Resolved" → effective_status vstat prev ≠ some "Resolved" →
      c ≠ "" → b ≠ "" → g ≠ "" →
      summary_count
        (perform_update_bumps tbl prev vstat (some c) (some b) (some g) qc qb qg now) c b g
        = (if summary_count tbl c b g - 1 < 0 then 0 else summary_count tbl c b g - 1))
    ∧ (∀ (tbl : List SRow) (prev vstat pc pb pg qc qb qg : Option String) (now : Int),
      prev ≠ some "Resolved" → effective_status vstat prev = some "Resolved" →
      (pyTruthy qc = false ∨ pyTruthy qb = false ∨ pyTruthy qg = false) →
      perform_update_bumps tbl prev vstat pc pb pg qc qb qg now = tbl)
    ∧ (∀ (tbl : List SRow) (prev vstat pc pb pg qc qb qg : Option String) (now : Int),
      prev = some "Resolved" → effective_status vstat prev ≠ some "Resolved" →
      (pyTruthy pc = false ∨ pyTruthy pb = false ∨ pyTruthy pg = false) →
      perform_update_bumps tbl prev vstat pc pb pg qc qb qg now = tbl)
    ∧ (∀ (tbl : List SRow) (c b g : String) (now now2 : Int),
      c ≠ "" → b ≠ "" → g ≠ "" → 0 ≤ summary_count tbl c b g →
      summary_count
        (perform_update_bumps
          (perform_update_bumps tbl (some "Pending") (some "Resolved")
            (some c) (some b) (some g) (some c) (some b) (some g) now)
          (some "Resolved") (some "Pending")
          (some c) (some b) (some g) (some c) (some b) (some g) now2) c b g
        = summary_count tbl c b g
      ∧ 0 ≤ summary_count
        (perform_update_bumps
          (perform_update_bumps tbl (some "Pending") (some "Resolved")
            (some c) (some b) (some g) (some c) (some b) (some g) now)
          (some "Resolved") (some "Pending")
          (some c) (some b) (some g) (some c) (some b) (some g) now2) c b g) := by
  have hup : ∀ (tbl : List SRow) (prev vstat pc pb pg : Option String)
      (c b g : String) (now : Int),
      prev ≠ some "Resolved" → effective_status vstat prev = some "Resolved" →
      c ≠ "" → b ≠ "" → g ≠ "" → 0 ≤ summary_count tbl c b g →
      summary_count
        (perform_update_bumps tbl prev vstat pc pb pg (some c) (some b) (some g) now) c b g
        = summary_count tbl c b g + 1 := by
    intro tbl prev vstat pc pb pg c b g now h1 h2 hc hb hg hnn
    rw [perform_update_bumps_up tbl prev vstat pc pb pg _ _ _ now h1 h2,
      bump_summary_some tbl c b g 1 now hc hb hg, summary_count_bump_core]
    rw [if_neg (by omega)]
  have hdown : ∀ (tbl : List SRow) (prev vstat qc qb qg : Option String)
      (c b g : String) (now : Int),
      prev = some "Resolved" → effective_status vstat prev ≠ some "Resolved" →
      c ≠ "" → b ≠ "" → g ≠ "" →
      summary_count
        (perform_update_bumps tbl prev vstat (some c) (some b) (some g) qc qb qg now) c b g
        = (if summary_count tbl c b g - 1 < 0 then 0 else summary_count tbl c b g - 1) := by
    intro tbl prev vstat qc qb qg c b g now h1 h2 hc hb hg
    rw [perform_update_bumps_down tbl prev vstat _ _ _ qc qb qg now h1 h2,
      bump_summary_some tbl c b g (-1) now hc hb hg, summary_count_bump_core]
    congr 1
  refine ⟨hup, hdown, ?_, ?_, ?_⟩
  · intro tbl prev vstat pc pb pg qc qb qg now h1 h2 h3
    rw [perform_update_bumps_up tbl prev vstat pc pb pg qc qb qg now h1 h2,
      bump_summary_noop tbl qc qb qg 1 now h3]
  · intro tbl prev vstat pc pb pg qc qb qg now h1 h2 h3
    rw [perform_update_bumps_down tbl prev vstat pc pb pg qc qb qg now h1 h2,
      bump_summary_noop tbl pc pb pg (-1) now h3]
  · intro tbl c b g now now2 hc hb hg hnn
    have e1 : effective_status (some "Resolved") (some "Pending") = some "Resolved" := rfl
    have e2 : effective_status (some "Pending") (some "Resolved") = some "Pending" := rfl
    have h1 := hup tbl (some "Pending") (some "Resolved")
      (some c) (some b) (some g) c b g now (by simp) e1 hc hb hg hnn
    have h2 := hdown
      (perform_update_bumps tbl (some "Pending") (some "Resolved")
        (some c) (some b) (some g) (some c) (some b) (some g) now)
      (some "Resolved") (some "Pending") (some c) (some b) (some g) c b g now2 rfl
      (by rw [e2]; simp) hc hb hg
    rw [h2, h1]
    constructor
    · rw [if_neg (by omega)]
      omega
    · rw [if_neg (by omega)]
      omega

/-- C1 witness: starting from an empty summary table, resolving a report
for (Quezon City, Commonwealth, Theft) then un-resolving it leaves the
count at 0 (its prior value), not below. -/
theorem C1_witness :
    summary_count
      (perform_update_bumps
        (perform_update_bumps [] (some "Pending") (some "Resolved")
          (some "Quezon City") (some "Commonwealth") (some "Theft")
          (some "Quezon City") (some "Commonwealth") (some "Theft") 100)
        (some "Resolved") (some "Pending")
        (some "Quezon City") (some "Commonwealth") (some "Theft")
        (some "Quezon City") (some "Commonwealth") (some "Theft") 200)
      "Quezon City" "Commonwealth" "Theft"
      = summary_count [] "Quezon City" "Commonwealth" "Theft" :=
  (C1_perform_update_summary.2.2.2.2 [] "Quezon City" "Commonwealth" "Theft" 100 200
    (by decide) (by decide) (by decide) (by decide)).1

/-- C3: a rebuild request finding the advisory lock held fails fast with
the distinct conflict outcome, performs no retry, and leaves the summary
table untouched (and the lock as it was); a request that acquires the
lock always ends with the lock released, also when the rebuild body
raises at any point. -/
theorem C3_rebuild_lock :
    (∀ (tbl : List SRow) (reports : List Report) (failAfter : Option Nat) (now : Int),
      analytics_update_post true tbl reports failAfter now = (ApiOutcome.conflict, true, tbl))
    ∧ (∀ (tbl : List SRow) (reports : List Report) (failAfter : Option Nat) (now : Int),
      (analytics_update_post false tbl reports failAfter now).2.1 = false) := by
  constructor
  · intro tbl reports failAfter now
    rfl
  · intro tbl reports failAfter now
    unfold analytics_update_post
    cases failAfter <;> rfl

/-- Helper for C2: the Boolean key test of `upsert_row` agrees with
`srowKey` equality. -/
theorem upsert_cond_iff (r : SRow) (k : String × String × Option String) :
    (r.location_city == k.1 && r.location_barangay == k.2.1 && r.category == k.2.2) = true
      ↔ srowKey r = k := by
  obtain ⟨c, b, g⟩ := k
  simp [srowKey, Prod.ext_iff]
  tauto

/-- The row created for an aggregated group by the rebuild. -/
def mkSummaryRow (it : (String × String × Option String) × Nat) (now : Int) : SRow :=
  { location_city := it.1.1, location_barangay := it.1.2.1, category := it.1.2.2,
    report_count := (it.2 : Int), last_updated := now }

/-- Helper for C2: upserting a key absent from the table appends. -/
theorem upsert_row_absent (tbl : List SRow) (k : String × String × Option String)
    (cnt : Nat) (now : Int) (h : ∀ r ∈ tbl, srowKey r ≠ k) :
    upsert_row tbl k cnt now = tbl ++ [mkSummaryRow (k, cnt) now] := by
  induction tbl with
  | nil => rfl
  | cons r rest ih =>
    have hc : (r.location_city == k.1 && r.location_barangay == k.2.1
        && r.category == k.2.2) = false := by
      rw [Bool.eq_false_iff]
      intro hx
      exact h r (List.mem_cons_self r rest) ((upsert_cond_iff r k).mp hx)
    simp only [upsert_row, hc, Bool.false_eq_true, if_false, List.cons_append, List.cons.injEq,
      true_and]
    exact ih (fun r' hr' => h r' (List.mem_cons_of_mem r hr'))

/-- Helper for C2: with pairwise-distinct keys none of which occurs in
the accumulator, the rebuild loop appends exactly one fresh row per
group with a non-empty city. -/
theorem rebuild_fold_eq (now : Int) :
    ∀ (items : List ((String × String × Option String) × Nat)) (acc : List SRow),
    (∀ it ∈ items, ∀ r ∈ acc, srowKey r ≠ it.1) →
    (items.map Prod.fst).Nodup →
    rebuild_fold acc items now
      = acc ++ items.filterMap
          (fun it => if it.1.1 == "" then none else some (mkSummaryRow it now)) := by
  intro items
  induction items with
  | nil =>
    intro acc _ _
    simp [rebuild_fold]
  | cons it rest ih =>
    intro acc hacc hnd
    have hnd2 : it.1 ∉ rest.map Prod.fst ∧ (rest.map Prod.fst).Nodup := by
      rw [List.map_cons] at hnd
      exact List.nodup_cons.mp hnd
    by_cases hcity : it.1.1 = ""
    · have hthis : rebuild_fold acc (it :: rest) now = rebuild_fold acc rest now := by
        simp [rebuild_fold, hcity]
      rw [hthis, ih acc (fun it' hit' => hacc it' (List.mem_cons_of_mem it hit')) hnd2.2]
      simp [List.filterMap_cons, hcity]
    · have hstep : rebuild_fold acc (it :: rest) now
          = rebuild_fold (upsert_row acc it.1 it.2 now) rest now := by
        simp [rebuild_fold, hcity]
      rw [hstep, upsert_row_absent acc it.1 it.2 now
        (fun r hr => hacc it (List.mem_cons_self it rest) r hr)]
      have hkey : ∀ it' ∈ rest, ∀ r ∈ acc ++ [mkSummaryRow (it.1, it.2) now],
          srowKey r ≠ it'.1 := by
        intro it' hit' r hr
        rcases List.mem_append.mp hr with h1 | h1
        · exact hacc it' (List.mem_cons_of_mem it hit') r h1
        · have hr2 : r = mkSummaryRow (it.1, it.2) now := by simpa using h1
          have hk : srowKey r = it.1 := by rw [hr2]; rfl
          rw [hk]
          have hmem : it'.1 ∈ rest.map Prod.fst := List.mem_map_of_mem Prod.fst hit'
          intro hEq
          exact hnd2.1 (hEq ▸ hmem)
      rw [ih (acc ++ [mkSummaryRow (it.1, it.2) now]) hkey hnd2.2]
      simp [List.filterMap_cons, hcity]

/-- Helper for C2/C8: keys of a `group_counts` are exactly the dedup of
the input, hence pairwise distinct. -/
theorem group_counts_keys {α : Type} [DecidableEq α] (l : List α) :
    (group_counts l).map Prod.fst = l.dedup := by
  unfold group_counts
  rw [List.map_map]
  have hcomp : (Prod.fst ∘ fun k => (k, l.count k)) = id := rfl
  rw [hcomp, List.map_id]

/-- Helper for C2/C8: a member of a `group_counts` pairs a member of the
list with its multiplicity. -/
theorem group_counts_mem {α : Type} [DecidableEq α] (l : List α)
    (k : α) (n : Nat) (h : (k, n) ∈ group_counts l) : k ∈ l ∧ n = l.count k := by
  unfold group_counts at h
  obtain ⟨k', hk', heq⟩ := List.mem_map.mp h
  cases heq
  exact ⟨List.mem_dedup.mp hk', rfl⟩

/-- Helper for C2/C8: multiplicity over a mapped list as a `countP`. -/
theorem count_map_eq_countP {α β : Type} [DecidableEq β] (f : α → β) (l : List α) (k : β) :
    (l.map f).count k = l.countP (fun a => f a == k) := by
  induction l with
  | nil => rfl
  | cons a l ih =>
    simp [List.count_cons, List.countP_cons, ih]

/-- Helper for C2: a `countP` against a fixed key over a duplicate-free
list is 1 or 0 according to membership. -/
theorem countP_eq_key_nodup {α : Type} [DecidableEq α] :
    ∀ (l : List α), l.Nodup → ∀ k : α,
    l.countP (fun x => decide (x = k)) = if k ∈ l then 1 else 0 := by
  intro l
  induction l with
  | nil =>
    intro _ k
    simp
  | cons a rest ih =>
    intro hnd k
    obtain ⟨hna, hnd'⟩ := List.nodup_cons.mp hnd
    rw [List.countP_cons]
    by_cases hak : a = k
    · subst hak
      have hz : rest.countP (fun x => decide (x = a)) = 0 := by
        rw [List.countP_eq_zero]
        intro x hx hdx
        exact hna ((of_decide_eq_true hdx) ▸ hx)
      simp [hz]
    · rw [ih hnd' k]
      have hka : ¬ k = a := fun hx => hak hx.symm
      by_cases hk : k ∈ rest
      · simp [hak, hk, List.mem_cons]
      · simp [hak, hka, hk, List.mem_cons]

/-- Helper for C2: `count` under the decidable-equality `BEq` is the
`countP` of the decided equality. -/
theorem count_eq_countP_decide {α : Type} [DecidableEq α] (l : List α) (k : α) :
    l.count k = l.countP (fun x => decide (x = k)) := by
  rw [List.count_eq_countP]
  refine List.countP_congr ?_
  intro x hx
  constructor
  · intro hbx
    exact hbx
  · intro hdx
    exact hdx

/-- Helper for C2: multiplicity of a coalesced key among the mapped
Resolved reports is the naive per-group count. -/
theorem resolved_countP (reports : List Report) (c b : String) (g : Option String) :
    ((reports.filter isResolvedRow).map coalesce_key).countP
        (fun x => decide (x = (c, b, g)))
      = resolved_group_count reports c b g := by
  rw [List.countP_map]
  unfold resolved_group_count
  rw [← List.countP_eq_length_filter]
  rfl

/-- C2 counterexample: a single Resolved report with a NULL city: the
claim's table has the (city-or-empty-string) row ("", "Unknown", Theft),
but the source's rebuild skips aggregated groups whose coalesced city is
empty (`if not item['_city']: continue`) and produces an empty table. -/
theorem C2_counterexample :
    (analytics_update_post false []
        [{ report_id := 1, status := "Resolved", location_city := none,
           location_barangay := none, category := some "Theft",
           created_at := 0, updated_at := some 0 }] none 5).2.2 = []
    ∧ rebuild_table_claim
        [{ report_id := 1, status := "Resolved", location_city := none,
           location_barangay := none, category := some "Theft",
           created_at := 0, updated_at := some 0 }] 5
      = [{ location_city := "", location_barangay := "Unknown", category := some "Theft",
           report_count := 1, last_updated := 5 }]
    ∧ ([] : List SRow)
      ≠ [{ location_city := "", location_barangay := "Unknown", category := some "Theft",
           report_count := 1, last_updated := 5 }] := by
  refine ⟨by decide, by decide, by decide⟩

/-- C2 (amended): after a successful full rebuild (lock acquired, no
failure) the outcome is OK and the summary table holds exactly one row
per distinct coalesced (city, barangay-or-Unknown, category) group of
case-insensitively Resolved reports whose coalesced city is non-empty —
each row carrying that group's naive count and the rebuild timestamp —
and no other rows (groups with a NULL/empty city are skipped; every
pre-existing row is deleted first, so no stale keys remain). -/
theorem C2_full_rebuild (prior : List SRow) (reports : List Report) (now : Int) :
    (analytics_update_post false prior reports none now).1 = ApiOutcome.ok
    ∧ (∀ (c b : String) (g : Option String), c ≠ "" →
        (((analytics_update_post false prior reports none now).2.2).filter
            (fun r => decide (srowKey r = (c, b, g)))).length
          = (if 0 < resolved_group_count reports c b g then 1 else 0))
    ∧ (∀ r ∈ (analytics_update_post false prior reports none now).2.2,
        r.location_city ≠ ""
        ∧ r.report_count
            = (resolved_group_count reports r.location_city r.location_barangay r.category : Int)
        ∧ r.last_updated = now) := by
  have hnodup : ((aggregate_resolved reports).map Prod.fst).Nodup := by
    unfold aggregate_resolved
    rw [group_counts_keys]
    exact List.nodup_dedup _
  have hT : (analytics_update_post false prior reports none now).2.2
      = (aggregate_resolved reports).filterMap
          (fun it => if it.1.1 == "" then none else some (mkSummaryRow it now)) := by
    show rebuild_fold [] (aggregate_resolved reports) now = _
    exact rebuild_fold_eq now (aggregate_resolved reports) [] (by simp) hnodup
  refine ⟨rfl, ?_, ?_⟩
  · intro c b g hc
    rw [hT, ← List.countP_eq_length_filter, List.countP_filterMap]
    have hq : (fun it => ((Option.map (fun r => decide (srowKey r = (c, b, g)))
          (if it.1.1 == "" then none else some (mkSummaryRow it now))).getD false))
        = (fun it : (String × String × Option String) × Nat => decide (it.1 = (c, b, g))) := by
      funext it
      by_cases h : it.1.1 = ""
      · have hk : decide (it.1 = (c, b, g)) = false := by
          rw [decide_eq_false_iff_not]
          intro hx
          have h1 : it.1.1 = c := by rw [hx]
          exact hc (h1 ▸ h)
        simp [h, hk]
      · have hsk : srowKey (mkSummaryRow it now) = it.1 := rfl
        simp [h, hsk]
    rw [hq]
    have hmap : (aggregate_resolved reports).countP
          (fun it => decide (it.1 = (c, b, g)))
        = ((aggregate_resolved reports).map Prod.fst).countP
            (fun x => decide (x = (c, b, g))) :=
      (List.countP_map (fun x => decide (x = (c, b, g))) Prod.fst
        (aggregate_resolved reports)).symm
    rw [hmap]
    have hkeys : (aggregate_resolved reports).map Prod.fst
        = ((reports.filter isResolvedRow).map coalesce_key).dedup := by
      unfold aggregate_resolved
      exact group_counts_keys _
    rw [hkeys, countP_eq_key_nodup _ (List.nodup_dedup _) (c, b, g)]
    by_cases hmem : (c, b, g) ∈ (reports.filter isResolvedRow).map coalesce_key
    · have hpos : 0 < resolved_group_count reports c b g := by
        rw [← resolved_countP]
        exact List.countP_pos.mpr ⟨(c, b, g), hmem, by simp⟩
      rw [if_pos (List.mem_dedup.mpr hmem), if_pos hpos]
    · have hz : resolved_group_count reports c b g = 0 := by
        rw [← resolved_countP, List.countP_eq_zero]
        intro a ha hda
        exact hmem ((of_decide_eq_true hda) ▸ ha)
      rw [if_neg (fun hx => hmem (List.mem_dedup.mp hx)), hz]
      rfl
  · intro r hr
    rw [hT] at hr
    obtain ⟨it, hit, heq⟩ := List.mem_filterMap.mp hr
    by_cases h : it.1.1 = ""
    · rw [if_pos (by simpa using h)] at heq
      exact absurd heq (by simp)
    · rw [if_neg (by simpa using h)] at heq
      have hre : r = mkSummaryRow it now := (Option.some.inj heq).symm
      have hcnt := (group_counts_mem _ it.1 it.2 hit).2
      have hcnt2 : it.2 = resolved_group_count reports it.1.1 it.1.2.1 it.1.2.2 := by
        rw [hcnt, count_eq_countP_decide]
        exact resolved_countP reports it.1.1 it.1.2.1 it.1.2.2
      subst hre
      exact ⟨h, congrArg Nat.cast hcnt2, rfl⟩

/-- C2 witness: one geocoded Resolved report yields exactly one summary
row for its group, a stale prior row notwithstanding. -/
theorem C2_witness :
    (((analytics_update_post false
        [{ location_city := "Stale", location_barangay := "Row", category := some "Theft",
           report_count := 9, last_updated := 0 }]
        [{ report_id := 1, status := "Resolved", location_city := some "Manila",
           location_barangay := some "Tondo", category := some "Theft",
           created_at := 0, updated_at := some 0 }] none 7).2.2).filter
        (fun r => decide (srowKey r = ("Manila", "Tondo", some "Theft")))).length = 1 := by
  have h := (C2_full_rebuild
    [{ location_city := "Stale", location_barangay := "Row", category := some "Theft",
       report_count := 9, last_updated := 0 }]
    [{ report_id := 1, status := "Resolved", location_city := some "Manila",
       location_barangay := some "Tondo", category := some "Theft",
       created_at := 0, updated_at := some 0 }] 7).2.1 "Manila" "Tondo" (some "Theft")
    (by decide)
  rw [h]
  decide

/-- Helper for C8: the group multiplicities of a `group_counts` sum to
the length of the grouped list. -/
theorem sum_group_counts {α : Type} [DecidableEq α] (l : List α) :
    ((group_counts l).map Prod.snd).sum = l.length := by
  unfold group_counts
  rw [List.map_map]
  have hcomp : (Prod.snd ∘ fun k => (k, l.count k)) = (fun k => l.count k) := rfl
  rw [hcomp]
  exact List.sum_map_count_dedup_eq_length l

/-- Helper for C8: a scaled cast sum. -/
theorem sum_map_cast_mul (l : List Nat) (k : ℚ) :
    (l.map (fun c : Nat => (c : ℚ) * k)).sum = (l.sum : ℚ) * k := by
  induction l with
  | nil => simp
  | cons a l ih =>
    simp [ih]
    ring

/-- Helper for C8: the unfolding of `build_top_locations`' result rows. -/
theorem build_top_locations_results (reports : List Report) (f : FilterF) :
    (build_top_locations reports f).results
      = (top_location_items reports f).map (fun it =>
          { location_city := it.1.1, location_barangay := it.1.2, report_count := it.2,
            report_percent := if (resolvedFilteredBase reports f).length = 0 then 0
              else (it.2 : ℚ) / ((resolvedFilteredBase reports f).length : ℚ) * 100
            : LocRow }) := rfl

/-- C8: every row of `build_top_locations` carries
`report_percent = report_count/total*100` (0 for every row when the
total is 0), and when the total is positive and the 200-group cap is not
reached, the percentages over all returned rows sum to exactly 100
(arithmetic modelled over `ℚ`; the source computes in floating point). -/
theorem C8_top_locations_percent (reports : List Report) (f : FilterF) :
    (∀ row ∈ (build_top_locations reports f).results,
      row.report_percent
        = if (build_top_locations reports f).total_resolved = 0 then 0
          else (row.report_count : ℚ)
            / ((build_top_locations reports f).total_resolved : ℚ) * 100)
    ∧ (0 < (resolvedFilteredBase reports f).length →
      (top_location_groups reports f).length ≤ 200 →
      ((build_top_locations reports f).results.map
        (fun row => row.report_percent)).sum = 100) := by
  constructor
  · intro row hrow
    rw [build_top_locations_results] at hrow
    obtain ⟨it, hit, heq⟩ := List.mem_map.mp hrow
    cases heq
    rfl
  · intro hpos hcap
    have hT0 : ((resolvedFilteredBase reports f).length : ℚ) ≠ 0 :=
      Nat.cast_ne_zero.mpr (by omega)
    have hTne : ¬ (resolvedFilteredBase reports f).length = 0 := by omega
    rw [build_top_locations_results, List.map_map]
    have hfun : ((fun row : LocRow => row.report_percent) ∘ (fun it =>
        { location_city := it.1.1, location_barangay := it.1.2, report_count := it.2,
          report_percent := if (resolvedFilteredBase reports f).length = 0 then 0
            else (it.2 : ℚ) / ((resolvedFilteredBase reports f).length : ℚ) * 100
          : LocRow }))
        = (fun it : (Option String × Option String) × Nat =>
            (it.2 : ℚ) * (100 / ((resolvedFilteredBase reports f).length : ℚ))) := by
      funext it
      show (if (resolvedFilteredBase reports f).length = 0 then 0
        else (it.2 : ℚ) / ((resolvedFilteredBase reports f).length : ℚ) * 100) = _
      rw [if_neg hTne]
      field_simp
    rw [hfun]
    unfold top_location_items
    by_cases hbr : (!(pyTruthy f.city) || !(pyTruthy f.barangay)) = true
    · rw [if_pos hbr]
      have hperm : ((top_location_groups reports f).insertionSort locRowOrder).Perm
          (top_location_groups reports f) := List.perm_insertionSort _ _
      have hlen : ((top_location_groups reports f).insertionSort locRowOrder).length
          = (top_location_groups reports f).length := hperm.length_eq
      rw [List.take_of_length_le (by omega)]
      have hsum : (((top_location_groups reports f).insertionSort locRowOrder).map
          (fun it : (Option String × Option String) × Nat =>
            (it.2 : ℚ) * (100 / ((resolvedFilteredBase reports f).length : ℚ)))).sum
          = ((top_location_groups reports f).map
            (fun it : (Option String × Option String) × Nat =>
              (it.2 : ℚ) * (100 / ((resolvedFilteredBase reports f).length : ℚ)))).sum :=
        (hperm.map _).sum_eq
      rw [hsum]
      have hsnd : (top_location_groups reports f).map
          (fun it : (Option String × Option String) × Nat =>
            (it.2 : ℚ) * (100 / ((resolvedFilteredBase reports f).length : ℚ)))
          = ((top_location_groups reports f).map Prod.snd).map
            (fun c : Nat => (c : ℚ) * (100 / ((resolvedFilteredBase reports f).length : ℚ))) := by
        rw [List.map_map]
        rfl
      rw [hsnd, sum_map_cast_mul]
      have htot : ((top_location_groups reports f).map Prod.snd).sum
          = (resolvedFilteredBase reports f).length := by
        unfold top_location_groups
        rw [sum_group_counts, List.length_map]
      rw [htot]
      field_simp
    · rw [if_neg hbr]
      simp only [List.map_cons, List.map_nil, List.sum_cons, List.sum_nil, add_zero]
      field_simp

/-- C8 witness: two resolved reports in two distinct barangays under an
unfiltered query: the two 50% rows sum to exactly 100. -/
theorem C8_witness :
    ((build_top_locations
      [{ report_id := 1, status := "Resolved", location_city := some "Manila",
         location_barangay := some "Tondo", category := some "Theft",
         created_at := 0, updated_at := some 0 },
       { report_id := 2, status := "Resolved", location_city := some "Manila",
         location_barangay := some "Sampaloc", category := some "Robbery",
         created_at := 0, updated_at := some 0 }]
      { days := 0, since := none, scope := "all", office_id := none,
        city := none, barangay := none, category := none }).results.map
      (fun row => row.report_percent)).sum = 100 :=
  (C8_top_locations_percent
    [{ report_id := 1, status := "Resolved", location_city := some "Manila",
       location_barangay := some "Tondo", category := some "Theft",
       created_at := 0, updated_at := some 0 },
     { report_id := 2, status := "Resolved", location_city := some "Manila",
       location_barangay := some "Sampaloc", category := some "Robbery",
       created_at := 0, updated_at := some 0 }]
    { days := 0, since := none, scope := "all", office_id := none,
      city := none, barangay := none, category := none }).2
    (by decide) (by decide)

/-- Helper for C6: the nested per-result scan equals one scan over the
flattened component list. -/
theorem scan_flatten (results : List GeoResult) (st : ParseState) :
    results.foldl (fun st r => r.address_components.foldl parse_step st) st
      = ((results.map (fun r => r.address_components)).flatten).foldl parse_step st := by
  induction results generalizing st with
  | nil => rfl
  | cons r rest ih =>
    rw [List.foldl_cons, List.map_cons, List.flatten_cons, List.foldl_append]
    exact ih _

/-- Helper for C6: a first-truthy-wins slot of the scan ends at the first
matching component's value (inputs assumed to carry non-empty names). -/
theorem scan_first_match (p : AddressComponent → Bool) (get : ParseState → Option String)
    (hstep : ∀ st c, get (parse_step st c)
      = if !(pyTruthy (get st)) && p c then some c.long_name else get st) :
    ∀ (comps : List AddressComponent) (st : ParseState),
    (∀ c ∈ comps, c.long_name ≠ "") →
    get (comps.foldl parse_step st)
      = if pyTruthy (get st) then get st
        else match comps.find? p with
          | some c => some c.long_name
          | none => get st := by
  intro comps
  induction comps with
  | nil =>
    intro st _
    by_cases ht : pyTruthy (get st) = true <;> simp [ht, List.find?]
  | cons c rest ih =>
    intro st hne
    have hcne : c.long_name ≠ "" := hne c (List.mem_cons_self c rest)
    have hrest : ∀ x ∈ rest, x.long_name ≠ "" :=
      fun x hx => hne x (List.mem_cons_of_mem c hx)
    rw [List.foldl_cons]
    by_cases ht : pyTruthy (get st) = true
    · have hkeep : get (parse_step st c) = get st := by
        rw [hstep]
        simp [ht]
      rw [ih (parse_step st c) hrest, hkeep, ht]
      simp
    · have ht' : pyTruthy (get st) = false := by simpa using ht
      by_cases hp : p c = true
      · have hset : get (parse_step st c) = some c.long_name := by
          rw [hstep]
          simp [ht', hp]
        have htr : pyTruthy (get (parse_step st c)) = true := by
          rw [hset]
          simp [pyTruthy, hcne]
        rw [ih (parse_step st c) hrest, htr, hset, ht']
        simp [List.find?_cons, hp]
      · have hp' : p c = false := by simpa using hp
        have hkeep : get (parse_step st c) = get st := by
          rw [hstep]
          simp [hp']
        rw [ih (parse_step st c) hrest, hkeep, ht']
        simp [List.find?_cons, hp']

/-- Helper for C6: when no high-priority barangay component exists, the
`sublocality_level_1` fallback slot records the first such component. -/
theorem scan_fallback :
    ∀ (comps : List AddressComponent) (st : ParseState),
    (∀ c ∈ comps, c.long_name ≠ "") →
    comps.find? compHigh = none →
    pyTruthy st.barangay = false →
    (comps.foldl parse_step st).barangay_fallback
      = if pyTruthy st.barangay_fallback then st.barangay_fallback
        else match comps.find? compSL1 with
          | some c => some c.long_name
          | none => st.barangay_fallback := by
  intro comps
  induction comps with
  | nil =>
    intro st _ _ _
    by_cases ht : pyTruthy st.barangay_fallback = true <;> simp [ht, List.find?]
  | cons c rest ih =>
    intro st hne hfind hb
    have hcne : c.long_name ≠ "" := hne c (List.mem_cons_self c rest)
    have hrest : ∀ x ∈ rest, x.long_name ≠ "" :=
      fun x hx => hne x (List.mem_cons_of_mem c hx)
    have hch : compHigh c = false := by
      by_contra hx
      have hx' : compHigh c = true := by simpa using hx
      rw [List.find?_cons, hx'] at hfind
      exact absurd hfind (by simp)
    have hfr : rest.find? compHigh = none := by
      rw [List.find?_cons, hch] at hfind
      exact hfind
    have hbstep : (parse_step st c).barangay = st.barangay := by
      show (if !(pyTruthy st.barangay) && compHigh c then some c.long_name
        else st.barangay) = st.barangay
      simp [hch]
    have hb' : pyTruthy (parse_step st c).barangay = false := by rw [hbstep]; exact hb
    rw [List.foldl_cons]
    by_cases ht : pyTruthy st.barangay_fallback = true
    · have hkeep : (parse_step st c).barangay_fallback = st.barangay_fallback := by
        show (if !(pyTruthy st.barangay) && !(compHigh c) && compSL1 c
            && !(pyTruthy st.barangay_fallback) then some c.long_name
          else st.barangay_fallback) = st.barangay_fallback
        simp [ht]
      rw [ih (parse_step st c) hrest hfr hb', hkeep, ht]
      simp
    · have ht' : pyTruthy st.barangay_fallback = false := by simpa using ht
      by_cases hp : compSL1 c = true
      · have hset : (parse_step st c).barangay_fallback = some c.long_name := by
          show (if !(pyTruthy st.barangay) && !(compHigh c) && compSL1 c
              && !(pyTruthy st.barangay_fallback) then some c.long_name
            else st.barangay_fallback) = some c.long_name
          simp [hb, hch, hp, ht']
        have htr : pyTruthy (parse_step st c).barangay_fallback = true := by
          rw [hset]
          simp [pyTruthy, hcne]
        rw [ih (parse_step st c) hrest hfr hb', htr, hset, ht']
        simp [List.find?_cons, hp]
      · have hp' : compSL1 c = false := by simpa using hp
        have hkeep : (parse_step st c).barangay_fallback = st.barangay_fallback := by
          show (if !(pyTruthy st.barangay) && !(compHigh c) && compSL1 c
              && !(pyTruthy st.barangay_fallback) then some c.long_name
            else st.barangay_fallback) = st.barangay_fallback
          simp [hp']
        rw [ih (parse_step st c) hrest hfr hb', hkeep, ht']
        simp [List.find?_cons, hp']

/-- Helper for C6: slot characterization from the all-`None` initial
state. -/
theorem scan_slot_init (p : AddressComponent → Bool) (get : ParseState → Option String)
    (hstep : ∀ st c, get (parse_step st c)
      = if !(pyTruthy (get st)) && p c then some c.long_name else get st)
    (hinit : get initParseState = none)
    (comps : List AddressComponent) (hne : ∀ c ∈ comps, c.long_name ≠ "") :
    get (comps.foldl parse_step initParseState)
      = match comps.find? p with
        | some c => some c.long_name
        | none => none := by
  rw [scan_first_match p get hstep comps initParseState hne, hinit]
  simp [pyTruthy]

/-- C6 counterexample: an `administrative_area_level_2` component
scanned before a `locality` component wins the city slot — the claim's
"locality …, else administrative_area_level_2" priority does not hold
across scan positions. -/
theorem C6_counterexample :
    (parse_address_components
      [{ address_components :=
          [{ types := ["administrative_area_level_2"], long_name := "ProvinceZ" },
           { types := ["locality"], long_name := "CityX" }] }]).1 = some "ProvinceZ"
    ∧ (parse_address_components
      [{ address_components :=
          [{ types := ["administrative_area_level_2"], long_name := "ProvinceZ" },
           { types := ["locality"], long_name := "CityX" }] }]).1 ≠ some "CityX" := by
  exact ⟨rfl, by decide⟩

/-- C6 (amended): the parser returns `(None, None, None)` on an empty
result list; on results whose components all carry non-empty names it
resolves barangay to the first value among components of the lumped
high-priority types (sublocality_level_2/neighborhood/
administrative_area_level_4/5), falling back to the first
`sublocality_level_1` value only when no high-priority match exists;
city to the first value among components of any city type (locality/
administrative_area_level_3 checked before administrative_area_level_2
within a component); and the address line to
`"{street_number} {route}"` with missing parts skipped, else premise,
else point of interest, with `", {barangay}"` appended exactly when
both the line and the barangay are resolved — city is never appended. -/
theorem C6_parse_address_components :
    parse_address_components [] = (none, none, none)
    ∧ (∀ results : List GeoResult,
        (∀ res ∈ results, ∀ c ∈ res.address_components, c.long_name ≠ "") →
        parse_address_components results = parse_address_components_claim results) := by
  constructor
  · rfl
  · intro results hne
    by_cases hemp : results.isEmpty = true
    · unfold parse_address_components parse_address_components_claim
      rw [if_pos hemp, if_pos hemp]
    · have hne' : ∀ c ∈ (results.map (fun r => r.address_components)).flatten,
          c.long_name ≠ "" := by
        intro c hc
        obtain ⟨l, hl, hcl⟩ := List.mem_flatten.mp hc
        obtain ⟨res, hres, hleq⟩ := List.mem_map.mp hl
        exact hne res hres c (hleq ▸ hcl)
      unfold parse_address_components parse_address_components_claim
      rw [if_neg hemp, if_neg hemp, scan_flatten]
      have hsn := scan_slot_init (fun c => c.types.contains "street_number")
        (fun st => st.street_number)
        (by
          intro st c
          show (if c.types.contains "street_number" && !(pyTruthy st.street_number)
            then some c.long_name else st.street_number) = _
          rw [Bool.and_comm])
        rfl _ hne'
      have hroute := scan_slot_init (fun c => c.types.contains "route")
        (fun st => st.route)
        (by
          intro st c
          show (if c.types.contains "route" && !(pyTruthy st.route)
            then some c.long_name else st.route) = _
          rw [Bool.and_comm])
        rfl _ hne'
      have hprem := scan_slot_init
        (fun c => c.types.contains "premise" || c.types.contains "subpremise")
        (fun st => st.premise)
        (by
          intro st c
          show (if (c.types.contains "premise" || c.types.contains "subpremise")
              && !(pyTruthy st.premise)
            then some c.long_name else st.premise) = _
          rw [Bool.and_comm])
        rfl _ hne'
      have hpoi := scan_slot_init (fun c => c.types.contains "point_of_interest")
        (fun st => st.poi)
        (by
          intro st c
          show (if c.types.contains "point_of_interest" && !(pyTruthy st.poi)
            then some c.long_name else st.poi) = _
          rw [Bool.and_comm])
        rfl _ hne'
      have hcity := scan_slot_init compCity (fun st => st.city)
        (fun st c => rfl) rfl _ hne'
      have hbar := scan_slot_init compHigh (fun st => st.barangay)
        (fun st c => rfl) rfl _ hne'
      simp only [hsn, hroute, hprem, hpoi, hcity, hbar]
      cases hhigh : ((results.map (fun r => r.address_components)).flatten).find? compHigh with
      | some c =>
        have hcmem : c ∈ (results.map (fun r => r.address_components)).flatten :=
          List.mem_of_find?_eq_some hhigh
        have hcne : c.long_name ≠ "" := hne' c hcmem
        have htr : pyTruthy (some c.long_name) = true := by simp [pyTruthy, hcne]
        simp only [hhigh, htr, Bool.not_true, Bool.false_and, Bool.and_true,
          Bool.false_eq_true, if_false]
      | none =>
        have hfb := scan_fallback ((results.map (fun r => r.address_components)).flatten)
          initParseState hne' hhigh rfl
        have hfbnone : pyTruthy initParseState.barangay_fallback = false := rfl
        rw [hfbnone] at hfb
        simp only [Bool.false_eq_true, if_false] at hfb
        cases hsl1 : ((results.map (fun r => r.address_components)).flatten).find? compSL1 with
        | some c2 =>
          have hcmem : c2 ∈ (results.map (fun r => r.address_components)).flatten :=
            List.mem_of_find?_eq_some hsl1
          have hcne : c2.long_name ≠ "" := hne' c2 hcmem
          have htr : pyTruthy (some c2.long_name) = true := by simp [pyTruthy, hcne]
          rw [hsl1] at hfb
          simp only [] at hfb
          have hpn : pyTruthy none = false := rfl
          simp only [hhigh, hfb, hpn, htr, Bool.not_false, Bool.not_true,
            Bool.true_and, Bool.false_and, Bool.and_true, Bool.false_eq_true, if_false,
            if_true, eq_self_iff_true]
        | none =>
          rw [hsl1] at hfb
          simp only [] at hfb
          have hpn : pyTruthy none = false := rfl
          have hinitfb : initParseState.barangay_fallback = none := rfl
          rw [hinitfb] at hfb
          simp only [hhigh, hfb, hpn, Bool.not_false, Bool.not_true,
            Bool.true_and, Bool.false_and, Bool.and_false, Bool.and_true,
            Bool.false_eq_true, if_false, if_true, eq_self_iff_true]

/-- C6 witness: the claim's example — street number 12, route Main St,
neighborhood Brgy Y — goes through the refinement (both sides yielding
the address line "12 Main St, Brgy Y"). -/
theorem C6_witness :
    parse_address_components
      [{ address_components :=
          [{ types := ["street_number"], long_name := "12" },
           { types := ["route"], long_name := "Main St" },
           { types := ["neighborhood"], long_name := "Brgy Y" }] }]
      = parse_address_components_claim
        [{ address_components :=
            [{ types := ["street_number"], long_name := "12" },
             { types := ["route"], long_name := "Main St" },
             { types := ["neighborhood"], long_name := "Brgy Y" }] }] :=
  C6_parse_address_components.2
    [{ address_components :=
        [{ types := ["street_number"], long_name := "12" },
         { types := ["route"], long_name := "Main St" },
         { types := ["neighborhood"], long_name := "Brgy Y" }] }]
    (by decide)
